import Mathlib

/-!
Shallow embedding of the kids-story video pipeline (`app/app.py`): the two
story engines, the illustration provider with its offline fallback, the
narration synthesis dispatcher, per-scene clip rendering, timeline assembly
and the per-target export loop.  Machine floats are modelled as exact
rationals; Python's process-global `random` state is threaded explicitly as
a natural number.
-/

/-- A story scene: narration text, visual prompt and requested duration in
seconds (dataclass `Scene`, app.py lines 79-83). -/
structure Scene where
  text : String
  prompt : String
  duration : ℚ
  deriving DecidableEq

/-- Models `random.seed(s)` for a string `s`: Python derives the Mersenne
Twister seed deterministically from the string's bytes; the claims depend
only on the seed being a deterministic function of the string, modelled
here as a 64-bit polynomial hash over the characters. -/
def strSeed (s : String) : Nat :=
  s.data.foldl (fun h c => (h * 31 + c.toNat) % 2 ^ 64) 7

/-- One step of the pseudo-random generator (models the `random` module's
internal state update; the concrete constants stand in for the Mersenne
Twister, whose exact outputs no claim depends on). -/
def rngNext (g : Nat) : Nat :=
  (6364136223846793005 * g + 1442695040888963407) % 2 ^ 64

/-- Models `random.choice(xs)`: advances the generator state and picks an
element of `xs`; returns the choice together with the new state. -/
def rngChoice (xs : List String) (g : Nat) : String × Nat :=
  let g1 := rngNext g
  (xs.getD (g1 % xs.length) "", g1)

/-- The `MORALS` table (app.py lines 88-94) read through
`MORALS.get(moral, moral)`. -/
def MORALS (m : String) : String :=
  if m = "kindness" then "Kindness makes friends and brightens the world."
  else if m = "honesty" then "Telling the truth keeps hearts light and trust strong."
  else if m = "sharing" then "Sharing turns little joys into big ones."
  else if m = "courage" then "Being brave means trying even when things feel new."
  else if m = "curiosity" then "Questions open doors to wonderful discoveries."
  else m

def adjectives : List String := ["soft", "bright", "happy", "gentle", "sparkly", "cozy"]

def buddies : List String := ["bunny", "panda", "fox", "kitten", "puppy", "duckling"]

def places : List String := ["meadow", "forest", "playroom", "treehouse", "seashore", "garden"]

def colors : List String := ["sunny yellow", "sky blue", "leafy green", "peachy pink", "lavender"]

/-- The eight fixed narrative beats (app.py lines 98-107). -/
def beats_init (title theme moral : String) : List (String × String) :=
  [("Setup", "Introduce " ++ title ++ " in a cozy place related to " ++ theme ++ "."),
   ("Call to Adventure", "A gentle problem appears involving " ++ theme ++ "."),
   ("New Friend", "A helpful friend shares an idea."),
   ("Try and Learn", "They try a new way together."),
   ("Little Setback", "Something goes a bit wrong, but feelings are respected."),
   ("Brave Choice", "They breathe, think, and try again."),
   ("Happy Resolution", "The problem is solved kindly."),
   ("Moral", MORALS moral)]

/-- Python's `list.insert(-1, x)`: insert `x` just before the last element
(at position 0 when the list is empty). -/
def insertBeforeLast (x : α) : List α → List α
  | [] => [x]
  | [a] => [x, a]
  | a :: b :: rest => a :: insertBeforeLast x (b :: rest)

/-- The pad-then-truncate of app.py lines 108-110: `beats.insert(-1, filler)`
while `len(beats) < num_scenes`, then `beats[:num_scenes]`. -/
def padTruncate (filler : α) (l : List α) (n : Nat) : List α :=
  ((insertBeforeLast filler)^[n - l.length] l).take n

/-- `max(3.5, min(10.0, (minutes * 60) / num_scenes))`
(app.py line 126 and line 168). -/
def base_dur (minutes num_scenes : Nat) : ℚ :=
  max (7 / 2) (min 10 ((minutes * 60 : ℚ) / num_scenes))

/-- The scene sentence built at app.py lines 118-121. -/
def scene_line (title theme idea adj buddy place : String) : String :=
  title ++ " and a " ++ adj ++ " " ++ buddy ++ " were in the " ++ place ++ ". "
    ++ idea ++ " They use " ++ theme ++ " to help."

/-- The illustration prompt built at app.py lines 122-125. -/
def scene_prompt (buddy place color : String) : String :=
  "Cute children’s book illustration, " ++ buddy ++ " and child in a " ++ place
    ++ ", soft lighting, pastel colors, " ++ color
    ++ ", friendly faces, simple shapes, high contrast, clean background"

/-- The per-beat loop of app.py lines 112-127: four `random.choice` draws
per beat, then one `Scene` appended with the clamped base duration. -/
def buildScenes (title theme : String) (dur : ℚ) : Nat → List (String × String) → List Scene
  | _, [] => []
  | g, b :: beats =>
    let adj := rngChoice adjectives g
    let buddy := rngChoice buddies adj.2
    let place := rngChoice places buddy.2
    let color := rngChoice colors place.2
    { text := scene_line title theme b.2 adj.1 buddy.1 place.1,
      prompt := scene_prompt buddy.1 place.1 color.1,
      duration := dur } :: buildScenes title theme dur color.2 beats

/-- Python's `str.title()`: first letter of each alphabetic run uppercased,
the rest lowercased. -/
def py_title_go : Bool → List Char → List Char
  | _, [] => []
  | prevAlpha, c :: cs =>
    (if c.isAlpha then (if prevAlpha then c.toLower else c.toUpper) else c)
      :: py_title_go c.isAlpha cs

def py_title (s : String) : String :=
  String.mk (py_title_go false s.data)

/-- `generate_story_rule_based` (app.py lines 96-130).  `g0` is the global
`random`-module state at call time; the function's first action
`random.seed(title + theme + moral + str(age) + str(minutes) +
str(num_scenes))` overwrites it with a value derived from the inputs
alone, so `g0` is discarded. -/
def generate_story_rule_based (g0 : Nat) (title : String) (age : Nat)
    (theme moral : String) (minutes num_scenes : Nat) : String × List Scene :=
  let _ := g0
  let g := strSeed (title ++ theme ++ moral ++ toString age ++ toString minutes
    ++ toString num_scenes)
  let beats := padTruncate ("Explore", "They notice something wonderful around them.")
    (beats_init title theme moral) num_scenes
  (title ++ ": A " ++ py_title theme ++ " Adventure",
   buildScenes title theme (base_dur minutes num_scenes) g beats)

/-- One scene object of the JSON parsed from the story service: a dict read
through `s.get("text", "")` and `s.get("prompt", ...)` (app.py 164-171). -/
structure ParsedScene where
  text : Option String
  prompt : Option String
  deriving DecidableEq

/-- The top-level JSON object of the story service response, read through
`data.get("title", title)` and `data.get("scenes", [])` (app.py 163-174). -/
structure ParsedStory where
  title : Option String
  scenes : Option (List ParsedScene)
  deriving DecidableEq

/-- Outcome of the Ollama round trip in `generate_story_ollama`.
`failure` models everything that raises before the `try` block:
`requests` missing, `requests.post` raising, `r.raise_for_status()`
raising, or `r.json()` failing on the envelope.  `response body` models the
extracted response text, with `body = none` when `json.loads` fails (or
the decoded value is not an object) inside the `try` block. -/
inductive OllamaTransport where
  | failure
  | response (body : Option ParsedStory)
  deriving DecidableEq

/-- `generate_story_ollama` (app.py lines 142-177): errors raised before
the `try` block propagate to the caller; inside the `try` block, a parse
failure or an empty/missing scene list falls back to
`generate_story_rule_based` with the same inputs, and a parsed nonempty
scene list is truncated to `scenes[:num_scenes]`. -/
def generate_story_ollama (g0 : Nat) (title : String) (age : Nat)
    (theme moral : String) (minutes num_scenes : Nat) (tr : OllamaTransport) :
    Except String (String × List Scene) :=
  match tr with
  | .failure => .error "transport or HTTP error"
  | .response none =>
    .ok (generate_story_rule_based g0 title age theme moral minutes num_scenes)
  | .response (some data) =>
    let scenes := (data.scenes.getD []).map fun s =>
      Scene.mk (s.text.getD "") (s.prompt.getD "friendly illustration of the scene")
        (base_dur minutes num_scenes)
    if scenes = [] then
      .ok (generate_story_rule_based g0 title age theme moral minutes num_scenes)
    else
      .ok (data.title.getD title, scenes.take num_scenes)

/-- An RGB colour. -/
abbrev Color := Nat × Nat × Nat

/-- Raster image model for `PIL.Image`: dimensions plus a pixel map. -/
structure PILImage where
  width : Nat
  height : Nat
  px : Nat → Nat → Color

/-- `Image.new("RGB", (w, h), c)` (app.py line 196). -/
def imageNew (w h : Nat) (c : Color) : PILImage :=
  ⟨w, h, fun _ _ => c⟩

/-- `draw.line([(0, y), (width, y)], fill=c)`: paints row `y`
(app.py line 203). -/
def drawHLine (img : PILImage) (y : Nat) (c : Color) : PILImage :=
  { img with px := fun a b => if b = y then c else img.px a b }

/-- `draw.rounded_rectangle(...)` (app.py lines 205 and 210): paints the
rectangle region.  Corner rounding only reshapes which pixels are painted
and is immaterial to every claim, so the painted region is modelled as the
full rectangle. -/
def drawRoundedRect (img : PILImage) (x0 y0 x1 y1 : Int) (c : Color) : PILImage :=
  { img with px := fun a b =>
      if x0 ≤ (a : Int) ∧ (a : Int) ≤ x1 ∧ y0 ≤ (b : Int) ∧ (b : Int) ≤ y1
      then c else img.px a b }

/-- `draw.textlength(text, font=font)` (app.py line 216): Pillow raises
`ValueError` when the measured text contains a newline
(`_multiline_check`); otherwise the width is modelled as a monospaced
metric, number of characters times the font size. -/
def textLength (t : String) (size : Nat) : Except String Int :=
  if '\n' ∈ t.data then Except.error "cannot measure a multiline text"
  else Except.ok ((t.length * size : Nat) : Int)

/-- `draw.text((tx, ty), text, fill, font)` (app.py line 219): paints the
glyph box, `tw` being the measured text width. -/
def drawText (img : PILImage) (tx ty tw : Int) (size : Nat)
    (c : Color) : PILImage :=
  { img with px := fun a b =>
      if tx ≤ (a : Int) ∧ (a : Int) < tx + tw
          ∧ ty ≤ (b : Int) ∧ (b : Int) < ty + (size : Int)
      then c else img.px a b }

/-- Gradient row colour (app.py lines 198-202): with `t = y / height`,
`(int(255 - 20*t), int(250 - 50*t), int(240 - 60*t))`; `int()` truncation
of these nonnegative values is the floor. -/
def gradColor (y h : Nat) : Color :=
  (((255 : ℚ) - 20 * y / h).floor.toNat,
   ((250 : ℚ) - 50 * y / h).floor.toNat,
   ((240 : ℚ) - 60 * y / h).floor.toNat)

/-- The per-row gradient loop of app.py lines 198-203. -/
def paintGradient (img : PILImage) (h : Nat) : PILImage :=
  (List.range h).foldl (fun im y => drawHLine im y (gradColor y h)) img

/-- Python's `prompt.split(",")[0]`: the characters before the first
comma. -/
def first_clause : List Char → List Char
  | [] => []
  | c :: cs => if c = ',' then [] else c :: first_clause cs

/-- The measured bubble text `prompt.split(",")[0][:80]`
(app.py line 215). -/
def bubble_text (prompt : String) : String :=
  String.mk ((first_clause prompt.data).take 80)

/-- `fallback_illustration` (app.py lines 195-220).  `truetypeOk` models
whether `ImageFont.truetype("DejaVuSans.ttf", ...)` succeeds; on failure the
`except` branch degrades to the default font (modelled with its default
size 10).  Integer truncations `int(...)` of nonnegative quantities are
floor divisions; `//` is Python floor division `Int.fdiv`.  The
`draw.textlength` call at line 216 raises on a multiline text and that
exception propagates out of the function. -/
def fallback_illustration (truetypeOk : Bool) (prompt : String)
    (width height : Nat) : Except String PILImage :=
  let img := imageNew width height (255, 252, 246)
  let img := paintGradient img height
  let margin := min width height * 3 / 100
  let img := drawRoundedRect img margin margin ((width : Int) - margin)
    ((height : Int) - margin) (255, 230, 200)
  let bubble_w := width * 86 / 100
  let bubble_h := height * 18 / 100
  let bx := Int.fdiv ((width : Int) - bubble_w) 2
  let by0 := (height * 72 / 100 : Nat)
  let img := drawRoundedRect img bx by0 (bx + bubble_w) ((by0 : Int) + bubble_h)
    (255, 255, 255)
  let fontSize := if truetypeOk then bubble_h * 28 / 100 else 10
  let text := bubble_text prompt
  match textLength text fontSize with
  | Except.error e => Except.error e
  | Except.ok tw =>
    let th := fontSize
    let tx := if bubble_w ≠ 0 then bx + Int.fdiv ((bubble_w : Int) - tw) 2 else bx
    let ty := (by0 : Int) + Int.fdiv ((bubble_h : Int) - th) 2
    Except.ok (drawText img tx ty tw fontSize (60, 60, 60))

/-- `sd_txt2img` (app.py lines 183-192): raises unless the Stable Diffusion
service is configured (`SD_API` set and `requests` importable, both folded
into `sdApi`); otherwise the HTTP round trip either yields a decoded image
or raises, modelled by `sdResponse`. -/
def sd_txt2img (sdApi : Option String) (sdResponse : Option PILImage)
    (prompt : String) (width height : Nat) : Except String PILImage :=
  let _ := (prompt, width, height)
  match sdApi with
  | none => .error "Stable Diffusion API not configured."
  | some _ =>
    match sdResponse with
    | some img => .ok img
    | none => .error "HTTP or decode failure"

/-- `make_image` (app.py lines 223-228): try the service, fall back to the
procedural illustration on any exception; an exception raised by the
fallback itself is not caught and propagates to the caller. -/
def make_image (sdApi : Option String) (sdResponse : Option PILImage)
    (truetypeOk : Bool) (prompt : String) (res : Nat × Nat) :
    Except String PILImage :=
  match sd_txt2img sdApi sdResponse prompt res.1 res.2 with
  | .ok img => .ok img
  | .error _ => fallback_illustration truetypeOk prompt res.1 res.2

/-- POSIX `os.path.dirname` (CPython `posixpath.dirname`): everything up to
the last slash, with trailing slashes stripped unless the head is all
slashes; the empty string when there is no slash. -/
def dirname (p : String) : String :=
  let cs := p.data
  let tail_len := (cs.reverse.takeWhile (fun c => c ≠ '/')).length
  if tail_len = cs.length then ""
  else
    let head := cs.take (cs.length - tail_len)
    if head.all (fun c => c = '/') then String.mk head
    else String.mk (head.reverse.dropWhile (fun c => c = '/')).reverse

/-- `os.makedirs(p, exist_ok=True)`: CPython raises `FileNotFoundError` on
the empty path even with `exist_ok=True`; otherwise it succeeds exactly
when the path is creatable, with `creatable` abstracting the filesystem. -/
def makedirs (creatable : String → Bool) (p : String) : Except String Unit :=
  if p = "" then .error "No such file or directory"
  else if creatable p then .ok ()
  else .error "cannot create directory"

/-- `synthesize` (app.py lines 270-277): create the output directory with
`os.makedirs(os.path.dirname(out_wav), exist_ok=True)`, then dispatch on
the engine selector string.  `ttsRun` models the three TTS backends
(`tts_piper`, `tts_espeak`, `tts_pyttsx3`), each of which writes the wav
file or raises. -/
def synthesize (creatable : String → Bool)
    (ttsRun : String → String → Except String Unit)
    (text out_wav engine : String) : Except String Unit :=
  match makedirs creatable (dirname out_wav) with
  | .error e => .error e
  | .ok _ =>
    if engine = "Piper (offline)" then ttsRun "piper" text
    else if engine = "eSpeak (offline)" then ttsRun "espeak" text
    else ttsRun "pyttsx3" text

/-- The zoom end factor `zoom_end = 1.05` (app.py line 300). -/
def zoom_end : ℚ := 105 / 100

/-- A rendered scene clip: on-screen duration plus the time-parameterised
zoom factor of the Ken Burns effect. -/
structure RenderedClip where
  duration : ℚ
  zoom : ℚ → ℚ

/-- The per-scene clip construction inside `build_video` (app.py lines
297-301): `set_duration(max(sc.duration, ac.duration))`, then
`resize(lambda t: 1 + (zoom_end - 1) * (t / clip.duration))`. -/
def renderScene (sc : Scene) (audio_duration : ℚ) : RenderedClip :=
  { duration := max sc.duration audio_duration,
    zoom := fun t => 1 + (zoom_end - 1) * (t / max sc.duration audio_duration) }

/-- The per-scene loop of `build_video` (app.py lines 288-302): one clip
per scene, paired with the duration of the narration wav synthesized for
that scene. -/
def build_video_clips (scenes : List Scene) (audio : List ℚ) : List RenderedClip :=
  (scenes.zip audio).map fun p => renderScene p.1 p.2

/-- Sequential placement underlying
`concatenate_videoclips(clips, method="compose")` (app.py line 304): each
clip starts where the previous one stops. -/
def placeFrom (t : ℚ) : List ℚ → List (ℚ × ℚ)
  | [] => []
  | d :: ds => (t, t + d) :: placeFrom (t + d) ds

/-- The assembled timeline: entry `i` is the `(start, stop)` interval of
clip `i`. -/
def concatenate_videoclips (clips : List RenderedClip) : List (ℚ × ℚ) :=
  placeFrom 0 (clips.map fun c => c.duration)

/-- Total duration of the assembled timeline: the stop time of the last
clip (0 for an empty timeline). -/
def timeline_total (clips : List RenderedClip) : ℚ :=
  (((concatenate_videoclips clips).getLast?).map fun p => p.2).getD 0

/-- The per-target export loop of `ui` (app.py lines 362-370): each target
is rendered inside its own try/except; a failure appends an error message
(`st.error`), a success appends the output path to `results`.  `render`
models `build_video` for this run.  Returns
(error messages, successful outputs). -/
def export_loop (render : Nat × Nat → String → Except String String)
    (targets : List ((Nat × Nat) × String)) : List String × List String :=
  targets.foldl
    (fun acc t =>
      match render t.1 t.2 with
      | .ok out => (acc.1, acc.2 ++ [out])
      | .error e => (acc.1 ++ ["Failed to render " ++ t.2 ++ ": " ++ e], acc.2))
    ([], [])

/-! ### Helper lemmas about the rule-based engine -/

theorem buildScenes_length (title theme : String) (dur : ℚ)
    (beats : List (String × String)) :
    ∀ g, (buildScenes title theme dur g beats).length = beats.length := by
  induction beats with
  | nil => intro g; rfl
  | cons b rest ih =>
    intro g
    simp [buildScenes, ih]

theorem buildScenes_duration (title theme : String) (dur : ℚ)
    (beats : List (String × String)) :
    ∀ g sc, sc ∈ buildScenes title theme dur g beats → sc.duration = dur := by
  induction beats with
  | nil => intro g sc h; simp [buildScenes] at h
  | cons b rest ih =>
    intro g sc h
    simp only [buildScenes, List.mem_cons] at h
    rcases h with h | h
    · subst h; rfl
    · exact ih _ sc h

theorem insertBeforeLast_length (x : α) :
    ∀ l : List α, (insertBeforeLast x l).length = l.length + 1
  | [] => rfl
  | [_] => rfl
  | a :: b :: rest => by
    simp [insertBeforeLast, insertBeforeLast_length x (b :: rest)]

theorem iterate_insertBeforeLast_length (x : α) (l : List α) (k : Nat) :
    ((insertBeforeLast x)^[k] l).length = l.length + k := by
  induction k with
  | zero => rfl
  | succ n ih =>
    rw [Function.iterate_succ_apply', insertBeforeLast_length, ih]
    omega

theorem padTruncate_length (filler : α) (l : List α) (n : Nat) :
    (padTruncate filler l n).length = n := by
  simp only [padTruncate, List.length_take, iterate_insertBeforeLast_length]
  omega

theorem generate_story_rule_based_length (g0 : Nat) (title : String) (age : Nat)
    (theme moral : String) (minutes num_scenes : Nat) :
    (generate_story_rule_based g0 title age theme moral minutes num_scenes).2.length
      = num_scenes := by
  simp only [generate_story_rule_based]
  rw [buildScenes_length, padTruncate_length]

theorem generate_story_rule_based_duration (g0 : Nat) (title : String) (age : Nat)
    (theme moral : String) (minutes num_scenes : Nat) :
    ∀ sc ∈ (generate_story_rule_based g0 title age theme moral minutes num_scenes).2,
      sc.duration = base_dur minutes num_scenes := by
  intro sc h
  simp only [generate_story_rule_based] at h
  exact buildScenes_duration _ _ _ _ _ sc h

/-! ### Claim theorems: C1, C5, C3, C9 -/

/-- C1: for every rendered scene, the clip's effective on-screen duration
equals `max(scene.requested_duration, audio_duration)`; it is never shorter
than the scene's requested duration and never shorter than the narration
audio attached to it. -/
theorem renderScene_effective_duration (sc : Scene) (audio_duration : ℚ) :
    (renderScene sc audio_duration).duration = max sc.duration audio_duration
      ∧ sc.duration ≤ (renderScene sc audio_duration).duration
      ∧ audio_duration ≤ (renderScene sc audio_duration).duration :=
  ⟨rfl, le_max_left _ _, le_max_right _ _⟩

/-- C5: the deterministic story engine is insensitive to the ambient
`random`-module state (which `random.seed` overwrites with a value derived
from the inputs alone), so two calls with identical arguments produce
identical story titles and byte-identical scene text and prompt
sequences. -/
theorem generate_story_rule_based_deterministic (g1 g2 : Nat) (title : String)
    (age : Nat) (theme moral : String) (minutes num_scenes : Nat) :
    generate_story_rule_based g1 title age theme moral minutes num_scenes
      = generate_story_rule_based g2 title age theme moral minutes num_scenes := rfl

/-- C3 counterexample: on a transport failure the external-engine-backed
variant does not return the deterministic engine's result —
`requests.post`, `raise_for_status()` and `r.json()` sit outside the `try`
block, so the error propagates to the caller. -/
theorem generate_story_ollama_transport_cex :
    generate_story_ollama 0 "Mina" 5 "sky" "kindness" 2 8 OllamaTransport.failure
      = Except.error "transport or HTTP error" := rfl

/-- C3 (amended): inside the `try` block a parse failure or a missing/empty
scene list silently falls back to the deterministic engine with the same
inputs, but a transport-level failure (connection error, HTTP error status,
non-JSON envelope) propagates as an error to the caller of the variant
(the UI layer catches it and falls back there with a warning). -/
theorem generate_story_ollama_fallback_cases (g0 : Nat) (title : String)
    (age : Nat) (theme moral : String) (minutes num_scenes : Nat) :
    (generate_story_ollama g0 title age theme moral minutes num_scenes
        (OllamaTransport.response none)
      = Except.ok (generate_story_rule_based g0 title age theme moral minutes num_scenes))
    ∧ (∀ data : ParsedStory, data.scenes.getD [] = [] →
        generate_story_ollama g0 title age theme moral minutes num_scenes
            (OllamaTransport.response (some data))
          = Except.ok (generate_story_rule_based g0 title age theme moral minutes num_scenes))
    ∧ generate_story_ollama g0 title age theme moral minutes num_scenes
        OllamaTransport.failure = Except.error "transport or HTTP error" := by
  refine ⟨rfl, ?_, rfl⟩
  intro data h
  simp [generate_story_ollama, h]

theorem generate_story_ollama_fallback_witness :
    (ParsedStory.mk (some "X") none).scenes.getD [] = ([] : List ParsedScene)
    ∧ generate_story_ollama 0 "Mina" 5 "sky" "kindness" 2 8
        (OllamaTransport.response (some (ParsedStory.mk (some "X") none)))
      = Except.ok (generate_story_rule_based 0 "Mina" 5 "sky" "kindness" 2 8) :=
  ⟨rfl, (generate_story_ollama_fallback_cases 0 "Mina" 5 "sky" "kindness" 2 8).2.1
    (ParsedStory.mk (some "X") none) rfl⟩

/-- C9: the motion effect applied to each rendered clip is a zoom whose
scale factor is a linear, monotonically increasing function of time, equal
to 1.0 at t = 0 and to 1.05 at t = effective duration. -/
theorem renderScene_zoom_linear (sc : Scene) (audio_duration : ℚ)
    (hd : 0 < (renderScene sc audio_duration).duration) :
    (renderScene sc audio_duration).zoom 0 = 1
    ∧ (renderScene sc audio_duration).zoom ((renderScene sc audio_duration).duration)
        = 105 / 100
    ∧ (∀ t₁ t₂ : ℚ, t₁ < t₂ →
        (renderScene sc audio_duration).zoom t₁ < (renderScene sc audio_duration).zoom t₂)
    ∧ ∀ t : ℚ, (renderScene sc audio_duration).zoom t
        = 1 + (105 / 100 - 1) * t / (renderScene sc audio_duration).duration := by
  have hd' : (0 : ℚ) < max sc.duration audio_duration := hd
  have hne : max sc.duration audio_duration ≠ 0 := ne_of_gt hd'
  refine ⟨?_, ?_, ?_, ?_⟩
  · show (1 : ℚ) + (105/100 - 1) * (0 / max sc.duration audio_duration) = 1
    simp
  · show (1 : ℚ) + (105/100 - 1)
        * (max sc.duration audio_duration / max sc.duration audio_duration) = 105/100
    rw [div_self hne]
    norm_num
  · intro t₁ t₂ h
    show (1 : ℚ) + (105/100 - 1) * (t₁ / max sc.duration audio_duration)
        < 1 + (105/100 - 1) * (t₂ / max sc.duration audio_duration)
    have h1 : t₁ / max sc.duration audio_duration
        < t₂ / max sc.duration audio_duration := by
      rw [div_eq_mul_inv, div_eq_mul_inv]
      exact mul_lt_mul_of_pos_right h (inv_pos.mpr hd')
    have h2 : (0 : ℚ) < 105/100 - 1 := by norm_num
    nlinarith [mul_lt_mul_of_pos_left h1 h2]
  · intro t
    show (1 : ℚ) + (105/100 - 1) * (t / max sc.duration audio_duration)
        = 1 + (105/100 - 1) * t / max sc.duration audio_duration
    rw [mul_div_assoc]

theorem renderScene_zoom_linear_witness :
    (0 : ℚ) < (renderScene (Scene.mk "a" "p" 4) 2).duration
    ∧ ((renderScene (Scene.mk "a" "p" 4) 2).zoom 0 = 1
      ∧ (renderScene (Scene.mk "a" "p" 4) 2).zoom
          ((renderScene (Scene.mk "a" "p" 4) 2).duration) = 105 / 100
      ∧ (∀ t₁ t₂ : ℚ, t₁ < t₂ →
          (renderScene (Scene.mk "a" "p" 4) 2).zoom t₁
            < (renderScene (Scene.mk "a" "p" 4) 2).zoom t₂)
      ∧ ∀ t : ℚ, (renderScene (Scene.mk "a" "p" 4) 2).zoom t
          = 1 + (105 / 100 - 1) * t / (renderScene (Scene.mk "a" "p" 4) 2).duration) :=
  ⟨by rw [show (renderScene (Scene.mk "a" "p" 4) 2).duration = max (4 : ℚ) 2 from rfl,
      max_def]; norm_num,
   renderScene_zoom_linear (Scene.mk "a" "p" 4) 2
    (by rw [show (renderScene (Scene.mk "a" "p" 4) 2).duration = max (4 : ℚ) 2 from rfl,
      max_def]; norm_num)⟩

theorem generate_story_ollama_duration (g0 : Nat) (title : String) (age : Nat)
    (theme moral : String) (minutes num_scenes : Nat) (tr : OllamaTransport)
    (out : String × List Scene)
    (h : generate_story_ollama g0 title age theme moral minutes num_scenes tr
      = Except.ok out) :
    ∀ sc ∈ out.2, sc.duration = base_dur minutes num_scenes := by
  intro sc hsc
  cases tr with
  | failure => simp [generate_story_ollama] at h
  | response body =>
    cases body with
    | none =>
      simp only [generate_story_ollama, Except.ok.injEq] at h
      subst h
      exact generate_story_rule_based_duration _ _ _ _ _ _ _ sc hsc
    | some data =>
      simp only [generate_story_ollama] at h
      split at h
      · simp only [Except.ok.injEq] at h
        subst h
        exact generate_story_rule_based_duration _ _ _ _ _ _ _ sc hsc
      · simp only [Except.ok.injEq] at h
        subst h
        have hmem := List.mem_of_mem_take hsc
        simp only [List.mem_map] at hmem
        obtain ⟨s, hs, rfl⟩ := hmem
        rfl

/-- C6: every scene produced by either story engine has requested duration
`clamp(minutes*60/scene_count, 3.5, 10.0)` seconds; in particular every
scene's requested duration lies in the closed interval [3.5, 10.0]. -/
theorem scene_duration_clamped (g0 : Nat) (title : String) (age : Nat)
    (theme moral : String) (minutes num_scenes : Nat) (hn : 0 < num_scenes) :
    (∀ sc ∈ (generate_story_rule_based g0 title age theme moral minutes num_scenes).2,
        sc.duration = max (7 / 2) (min 10 ((minutes * 60 : ℚ) / num_scenes))
          ∧ (7 / 2 : ℚ) ≤ sc.duration ∧ sc.duration ≤ 10)
    ∧ ∀ tr out,
        generate_story_ollama g0 title age theme moral minutes num_scenes tr
          = Except.ok out →
        ∀ sc ∈ out.2,
          sc.duration = max (7 / 2) (min 10 ((minutes * 60 : ℚ) / num_scenes))
            ∧ (7 / 2 : ℚ) ≤ sc.duration ∧ sc.duration ≤ 10 := by
  have hb : (7 / 2 : ℚ) ≤ base_dur minutes num_scenes := le_max_left _ _
  have hub : base_dur minutes num_scenes ≤ 10 :=
    max_le (by norm_num) (min_le_left _ _)
  constructor
  · intro sc hsc
    have hd := generate_story_rule_based_duration g0 title age theme moral minutes
      num_scenes sc hsc
    refine ⟨hd, ?_, ?_⟩
    · rw [hd]; exact hb
    · rw [hd]; exact hub
  · intro tr out h sc hsc
    have hd := generate_story_ollama_duration g0 title age theme moral minutes
      num_scenes tr out h sc hsc
    refine ⟨hd, ?_, ?_⟩
    · rw [hd]; exact hb
    · rw [hd]; exact hub

theorem scene_duration_clamped_witness :
    0 < 8
    ∧ ((∀ sc ∈ (generate_story_rule_based 0 "Mina" 5 "sky" "kindness" 2 8).2,
        sc.duration = max (7 / 2) (min 10 ((2 * 60 : ℚ) / 8))
          ∧ (7 / 2 : ℚ) ≤ sc.duration ∧ sc.duration ≤ 10)
      ∧ ∀ tr out,
          generate_story_ollama 0 "Mina" 5 "sky" "kindness" 2 8 tr = Except.ok out →
          ∀ sc ∈ out.2,
            sc.duration = max (7 / 2) (min 10 ((2 * 60 : ℚ) / 8))
              ∧ (7 / 2 : ℚ) ≤ sc.duration ∧ sc.duration ≤ 10) :=
  ⟨by decide, scene_duration_clamped 0 "Mina" 5 "sky" "kindness" 2 8 (by decide)⟩

/-- C4 counterexample: the external-engine-backed variant does not pad — a
successfully parsed response with 1 scene and `scene_count = 3` yields a
scene list of length 1, not 3 (`scenes[:num_scenes]` only truncates). -/
theorem generate_story_ollama_short_cex :
    generate_story_ollama 0 "Mina" 5 "sky" "kindness" 2 3
        (OllamaTransport.response (some (ParsedStory.mk (some "X")
          (some [ParsedScene.mk (some "a") (some "p")]))))
      = Except.ok ("X", [Scene.mk "a" "p" 10])
    ∧ ([Scene.mk "a" "p" 10] : List Scene).length ≠ 3 := by
  have hb : base_dur 2 3 = 10 := by
    rw [base_dur]
    push_cast
    norm_num [min_def, max_def]
  constructor
  · simp [generate_story_ollama, hb]
  · decide

/-- C4 (amended): the deterministic engine always returns exactly
`scene_count` scenes (padded or truncated as needed); the
external-engine-backed variant truncates to at most `scene_count` but
never pads — on a successful parse with a nonempty scene list it returns
`min(parsed_count, scene_count)` scenes, and only its fallback paths
return exactly `scene_count`. -/
theorem story_engines_scene_count (g0 : Nat) (title : String) (age : Nat)
    (theme moral : String) (minutes num_scenes : Nat) :
    ((generate_story_rule_based g0 title age theme moral minutes num_scenes).2.length
        = num_scenes)
    ∧ (∀ data : ParsedStory, ∀ out, data.scenes.getD [] ≠ [] →
        generate_story_ollama g0 title age theme moral minutes num_scenes
            (OllamaTransport.response (some data)) = Except.ok out →
        out.2.length = min (data.scenes.getD []).length num_scenes)
    ∧ ∀ tr out,
        generate_story_ollama g0 title age theme moral minutes num_scenes tr
          = Except.ok out →
        out.2.length ≤ num_scenes := by
  refine ⟨generate_story_rule_based_length g0 title age theme moral minutes num_scenes,
    ?_, ?_⟩
  · intro data out hne h
    simp only [generate_story_ollama] at h
    split at h
    · rename_i hcond
      rw [List.map_eq_nil_iff] at hcond
      exact absurd hcond hne
    · simp only [Except.ok.injEq] at h
      subst h
      simp only [List.length_take, List.length_map]
      omega
  · intro tr out h
    cases tr with
    | failure => simp [generate_story_ollama] at h
    | response body =>
      cases body with
      | none =>
        simp only [generate_story_ollama, Except.ok.injEq] at h
        subst h
        rw [generate_story_rule_based_length]
      | some data =>
        simp only [generate_story_ollama] at h
        split at h
        · simp only [Except.ok.injEq] at h
          subst h
          rw [generate_story_rule_based_length]
        · simp only [Except.ok.injEq] at h
          subst h
          simp only [List.length_take]
          exact min_le_left _ _

theorem story_engines_scene_count_witness :
    (ParsedStory.mk (some "X")
        (some [ParsedScene.mk (some "a") (some "p")])).scenes.getD [] ≠ []
    ∧ generate_story_ollama 0 "Mina" 5 "sky" "kindness" 2 3
        (OllamaTransport.response (some (ParsedStory.mk (some "X")
          (some [ParsedScene.mk (some "a") (some "p")]))))
        = Except.ok ("X", [Scene.mk "a" "p" 10])
    ∧ ("X", [Scene.mk "a" "p" 10]).2.length
        = min ((ParsedStory.mk (some "X")
            (some [ParsedScene.mk (some "a") (some "p")])).scenes.getD []).length 3 := by
  have hb : base_dur 2 3 = 10 := by
    rw [base_dur]
    push_cast
    norm_num [min_def, max_def]
  have hne : (ParsedStory.mk (some "X")
      (some [ParsedScene.mk (some "a") (some "p")])).scenes.getD []
        ≠ ([] : List ParsedScene) := by simp
  have heq : generate_story_ollama 0 "Mina" 5 "sky" "kindness" 2 3
      (OllamaTransport.response (some (ParsedStory.mk (some "X")
        (some [ParsedScene.mk (some "a") (some "p")]))))
      = Except.ok ("X", [Scene.mk "a" "p" 10]) := by
    simp [generate_story_ollama, hb]
  exact ⟨hne, heq,
    (story_engines_scene_count 0 "Mina" 5 "sky" "kindness" 2 3).2.1 _ _ hne heq⟩

/-! ### Timeline placement lemmas -/

theorem placeFrom_length (ds : List ℚ) : ∀ t, (placeFrom t ds).length = ds.length := by
  induction ds with
  | nil => intro t; rfl
  | cons d rest ih => intro t; simp [placeFrom, ih]

theorem placeFrom_get (ds : List ℚ) :
    ∀ t i, i < ds.length →
      (placeFrom t ds)[i]? = some (t + (ds.take i).sum, t + (ds.take (i + 1)).sum) := by
  induction ds with
  | nil => intro t i h; simp at h
  | cons d rest ih =>
    intro t i h
    cases i with
    | zero => simp [placeFrom]
    | succ n =>
      have hn : n < rest.length := by simpa using h
      have hrec := ih (t + d) n hn
      simp only [placeFrom, List.getElem?_cons_succ, hrec, List.take_succ_cons,
        List.sum_cons, Option.some.injEq, Prod.mk.injEq]
      constructor <;> ring

theorem placeFrom_first_last (ds : List ℚ) (h : ds ≠ []) :
    (((placeFrom 0 ds).getLast?).map (fun p => p.2)).getD 0 = ds.sum
    ∧ ((placeFrom 0 ds)[0]?).map (fun p => p.1) = some 0
    ∧ ∀ i, i + 1 < (placeFrom 0 ds).length →
        ((placeFrom 0 ds)[i]?).map (fun p => p.2)
          = ((placeFrom 0 ds)[i + 1]?).map (fun p => p.1) := by
  have hpos : 0 < ds.length := List.length_pos.mpr h
  have hlenp : (placeFrom 0 ds).length = ds.length := placeFrom_length ds 0
  refine ⟨?_, ?_, ?_⟩
  · rw [List.getLast?_eq_getElem?, hlenp,
      placeFrom_get ds 0 (ds.length - 1) (by omega),
      show ds.length - 1 + 1 = ds.length from by omega]
    simp [List.take_length]
  · rw [placeFrom_get ds 0 0 hpos]
    simp
  · intro i hi
    rw [hlenp] at hi
    rw [placeFrom_get ds 0 i (by omega), placeFrom_get ds 0 (i + 1) (by omega)]
    simp

/-- C2: for every non-empty list of scenes and one export target, the
assembled timeline's total duration equals the sum of the scenes'
effective durations, the first clip starts at 0, and consecutive clips
abut exactly — no gaps and no overlaps. -/
theorem build_video_timeline_total (scenes : List Scene) (audio : List ℚ)
    (hne : scenes ≠ []) (hlen : scenes.length = audio.length) :
    timeline_total (build_video_clips scenes audio)
        = ((scenes.zip audio).map fun p => max p.1.duration p.2).sum
    ∧ ((concatenate_videoclips (build_video_clips scenes audio))[0]?).map (fun p => p.1)
        = some 0
    ∧ ∀ i, i + 1 < (concatenate_videoclips (build_video_clips scenes audio)).length →
        ((concatenate_videoclips (build_video_clips scenes audio))[i]?).map (fun p => p.2)
          = ((concatenate_videoclips (build_video_clips scenes audio))[i + 1]?).map
              (fun p => p.1) := by
  have hpos : 0 < scenes.length := List.length_pos.mpr hne
  have hds : (build_video_clips scenes audio).map (fun c => c.duration)
      = (scenes.zip audio).map (fun p => max p.1.duration p.2) := by
    simp [build_video_clips, List.map_map, Function.comp, renderScene]
  have hne' : ((build_video_clips scenes audio).map fun c => c.duration) ≠ [] := by
    intro hcontra
    have hl := congrArg List.length hcontra
    simp only [build_video_clips, List.length_map, List.length_zip, List.length_nil] at hl
    omega
  have key := placeFrom_first_last
    ((build_video_clips scenes audio).map fun c => c.duration) hne'
  refine ⟨?_, key.2.1, key.2.2⟩
  rw [show timeline_total (build_video_clips scenes audio)
      = (((placeFrom 0 ((build_video_clips scenes audio).map fun c => c.duration)).getLast?).map
          (fun p => p.2)).getD 0 from rfl,
    key.1, hds]

theorem build_video_timeline_total_witness :
    ([Scene.mk "a" "pa" 2, Scene.mk "b" "pb" 3] : List Scene) ≠ []
    ∧ ([Scene.mk "a" "pa" 2, Scene.mk "b" "pb" 3] : List Scene).length
        = ([5, 1] : List ℚ).length
    ∧ (timeline_total (build_video_clips [Scene.mk "a" "pa" 2, Scene.mk "b" "pb" 3] [5, 1])
          = ((([Scene.mk "a" "pa" 2, Scene.mk "b" "pb" 3] : List Scene).zip
              ([5, 1] : List ℚ)).map fun p => max p.1.duration p.2).sum
      ∧ ((concatenate_videoclips (build_video_clips
            [Scene.mk "a" "pa" 2, Scene.mk "b" "pb" 3] [5, 1]))[0]?).map (fun p => p.1)
          = some 0
      ∧ ∀ i, i + 1 < (concatenate_videoclips (build_video_clips
            [Scene.mk "a" "pa" 2, Scene.mk "b" "pb" 3] [5, 1])).length →
          ((concatenate_videoclips (build_video_clips
              [Scene.mk "a" "pa" 2, Scene.mk "b" "pb" 3] [5, 1]))[i]?).map (fun p => p.2)
            = ((concatenate_videoclips (build_video_clips
                [Scene.mk "a" "pa" 2, Scene.mk "b" "pb" 3] [5, 1]))[i + 1]?).map
                (fun p => p.1)) :=
  ⟨by simp, rfl,
   build_video_timeline_total [Scene.mk "a" "pa" 2, Scene.mk "b" "pb" 3] [5, 1]
    (by simp) rfl⟩

/-! ### Image dimension lemmas -/

theorem drawHLine_dims (img : PILImage) (y : Nat) (c : Color) :
    (drawHLine img y c).width = img.width ∧ (drawHLine img y c).height = img.height :=
  ⟨rfl, rfl⟩

theorem drawRoundedRect_dims (img : PILImage) (x0 y0 x1 y1 : Int) (c : Color) :
    (drawRoundedRect img x0 y0 x1 y1 c).width = img.width
      ∧ (drawRoundedRect img x0 y0 x1 y1 c).height = img.height :=
  ⟨rfl, rfl⟩

theorem drawText_dims (img : PILImage) (tx ty tw : Int) (size : Nat)
    (c : Color) :
    (drawText img tx ty tw size c).width = img.width
      ∧ (drawText img tx ty tw size c).height = img.height :=
  ⟨rfl, rfl⟩

theorem paintGradient_dims (h : Nat) :
    ∀ img : PILImage, (paintGradient img h).width = img.width
      ∧ (paintGradient img h).height = img.height := by
  have : ∀ (l : List Nat) (img : PILImage),
      ((l.foldl (fun im y => drawHLine im y (gradColor y h)) img)).width = img.width
        ∧ ((l.foldl (fun im y => drawHLine im y (gradColor y h)) img)).height
            = img.height := by
    intro l
    induction l with
    | nil => intro img; exact ⟨rfl, rfl⟩
    | cons a rest ih =>
      intro img
      simpa [List.foldl, drawHLine] using ih (drawHLine img a (gradColor a h))
  intro img
  exact this (List.range h) img

theorem fallback_illustration_ok_dims (truetypeOk : Bool) (prompt : String)
    (width height : Nat) (img : PILImage)
    (h : fallback_illustration truetypeOk prompt width height = Except.ok img) :
    img.width = width ∧ img.height = height := by
  simp only [fallback_illustration] at h
  split at h
  · simp at h
  · simp only [Except.ok.injEq] at h
    subst h
    exact ⟨(paintGradient_dims height (imageNew width height (255, 252, 246))).1,
      (paintGradient_dims height (imageNew width height (255, 252, 246))).2⟩

/-- C7 counterexample: the illustration fallback can raise — for a prompt
whose first comma-delimited clause contains a newline, `draw.textlength`
(app.py line 216) raises `ValueError`, and `make_image` does not catch an
exception thrown inside its `except` handler, so the error propagates to
the caller. -/
theorem fallback_illustration_newline_cex :
    fallback_illustration true "a\nb,c" 4 7
        = Except.error "cannot measure a multiline text"
    ∧ make_image none none true "a\nb,c" (4, 7)
        = Except.error "cannot measure a multiline text" :=
  ⟨rfl, rfl⟩

/-- C7 (amended): for every prompt whose first comma-delimited clause
(truncated to 80 characters) contains no newline — in particular the empty
string — and every positive requested width and height, the illustration
fallback does not raise and returns an image whose dimensions are exactly
the requested width and height, and the illustration provider with no
service configured returns that same image; a newline in the measured
clause, however, makes `draw.textlength` raise and the exception
propagates out of the provider. -/
theorem fallback_illustration_dims (truetypeOk : Bool) (prompt : String)
    (width height : Nat) (hw : 0 < width) (hh : 0 < height)
    (hp : '\n' ∉ (bubble_text prompt).data) :
    ∃ img : PILImage,
      fallback_illustration truetypeOk prompt width height = Except.ok img
      ∧ img.width = width ∧ img.height = height
      ∧ ∀ sdResponse,
          make_image none sdResponse truetypeOk prompt (width, height)
            = Except.ok img := by
  obtain ⟨img, himg⟩ : ∃ img,
      fallback_illustration truetypeOk prompt width height = Except.ok img := by
    simp only [fallback_illustration, textLength]
    rw [if_neg hp]
    exact ⟨_, rfl⟩
  obtain ⟨h1, h2⟩ :=
    fallback_illustration_ok_dims truetypeOk prompt width height img himg
  exact ⟨img, himg, h1, h2, fun sdResponse => himg⟩

theorem fallback_illustration_dims_witness :
    0 < 4 ∧ 0 < 7 ∧ '\n' ∉ (bubble_text "x").data
    ∧ ∃ img : PILImage,
        fallback_illustration true "x" 4 7 = Except.ok img
        ∧ img.width = 4 ∧ img.height = 7
        ∧ ∀ sdResponse, make_image none sdResponse true "x" (4, 7) = Except.ok img :=
  ⟨by decide, by decide, by decide,
   fallback_illustration_dims true "x" 4 7 (by decide) (by decide) (by decide)⟩

/-- C8: the export loop isolates failures — every target is attempted
regardless of other targets' outcomes, each successful target contributes
its output, each failed target contributes exactly one reported error
message, and the loop is a total function (no uncaught exception ends the
run). -/
theorem export_loop_isolated (render : Nat × Nat → String → Except String String)
    (targets : List ((Nat × Nat) × String)) :
    (export_loop render targets).2
        = targets.filterMap (fun t =>
            match render t.1 t.2 with
            | .ok out => some out
            | .error _ => none)
    ∧ (export_loop render targets).1
        = targets.filterMap (fun t =>
            match render t.1 t.2 with
            | .ok _ => none
            | .error e => some ("Failed to render " ++ t.2 ++ ": " ++ e))
    ∧ (export_loop render targets).1.length + (export_loop render targets).2.length
        = targets.length := by
  have main : ∀ (ts : List ((Nat × Nat) × String)) (errs outs : List String),
      ts.foldl (fun acc t =>
        match render t.1 t.2 with
        | .ok out => (acc.1, acc.2 ++ [out])
        | .error e => (acc.1 ++ ["Failed to render " ++ t.2 ++ ": " ++ e], acc.2))
        (errs, outs)
      = (errs ++ ts.filterMap (fun t =>
            match render t.1 t.2 with
            | .ok _ => none
            | .error e => some ("Failed to render " ++ t.2 ++ ": " ++ e)),
         outs ++ ts.filterMap (fun t =>
            match render t.1 t.2 with
            | .ok out => some out
            | .error _ => none)) := by
    intro ts
    induction ts with
    | nil => intro errs outs; simp
    | cons t rest ih =>
      intro errs outs
      cases hr : render t.1 t.2 with
      | ok out =>
        simp only [List.foldl_cons, hr]
        rw [ih]
        simp [List.filterMap_cons, hr, List.append_assoc]
      | error e =>
        simp only [List.foldl_cons, hr]
        rw [ih]
        simp [List.filterMap_cons, hr, List.append_assoc]
  have hloop := main targets [] []
  have hunfold : export_loop render targets
      = targets.foldl (fun acc t =>
          match render t.1 t.2 with
          | .ok out => (acc.1, acc.2 ++ [out])
          | .error e => (acc.1 ++ ["Failed to render " ++ t.2 ++ ": " ++ e], acc.2))
          ([], []) := rfl
  have h1 : (export_loop render targets).2
      = targets.filterMap (fun t =>
          match render t.1 t.2 with
          | .ok out => some out
          | .error _ => none) := by
    rw [hunfold, hloop]
    simp
  have h2 : (export_loop render targets).1
      = targets.filterMap (fun t =>
          match render t.1 t.2 with
          | .ok _ => none
          | .error e => some ("Failed to render " ++ t.2 ++ ": " ++ e)) := by
    rw [hunfold, hloop]
    simp
  have hlen : ∀ ts : List ((Nat × Nat) × String),
      (ts.filterMap (fun t =>
          match render t.1 t.2 with
          | .ok _ => none
          | .error e => some ("Failed to render " ++ t.2 ++ ": " ++ e))).length
        + (ts.filterMap (fun t =>
            match render t.1 t.2 with
            | .ok out => some out
            | .error _ => none)).length = ts.length := by
    intro ts
    induction ts with
    | nil => rfl
    | cons t rest ih =>
      cases hr : render t.1 t.2 with
      | ok out =>
        simp only [List.filterMap_cons, hr, List.length_cons]
        omega
      | error e =>
        simp only [List.filterMap_cons, hr, List.length_cons]
        omega
  refine ⟨h1, h2, ?_⟩
  rw [h1, h2]
  exact hlen targets

/-! ### Narration path handling -/

theorem dirname_no_slash (p : String) (h : '/' ∉ p.data) : dirname p = "" := by
  have hall : ∀ c ∈ p.data.reverse, (fun c => decide (c ≠ '/')) c = true := by
    intro c hc
    simp only [List.mem_reverse] at hc
    simp only [decide_eq_true_eq]
    intro hcontr
    exact h (hcontr ▸ hc)
  have htake : p.data.reverse.takeWhile (fun c => decide (c ≠ '/')) = p.data.reverse :=
    List.takeWhile_eq_self_iff.mpr hall
  simp only [dirname, htake, List.length_reverse]
  simp

/-- C10: calling `synthesize` with an output path that has no directory
component (a bare filename such as "out.wav") fails in
`os.makedirs(os.path.dirname(out_wav))` — before any TTS engine is invoked
and for every engine selection — because the directory-creation step is
applied to the empty string; and `synthesize` can only succeed when the
output path has a nonempty, creatable directory prefix. -/
theorem synthesize_requires_dirname (creatable : String → Bool)
    (ttsRun : String → String → Except String Unit) (text out_wav engine : String) :
    ('/' ∉ out_wav.data →
      synthesize creatable ttsRun text out_wav engine
        = Except.error "No such file or directory")
    ∧ ∀ u, synthesize creatable ttsRun text out_wav engine = Except.ok u →
        dirname out_wav ≠ "" ∧ creatable (dirname out_wav) = true := by
  constructor
  · intro h
    rw [show synthesize creatable ttsRun text out_wav engine
        = (match makedirs creatable (dirname out_wav) with
          | .error e => Except.error e
          | .ok _ =>
            if engine = "Piper (offline)" then ttsRun "piper" text
            else if engine = "eSpeak (offline)" then ttsRun "espeak" text
            else ttsRun "pyttsx3" text) from rfl,
      dirname_no_slash out_wav h]
    rfl
  · intro u h
    by_cases hd : dirname out_wav = ""
    · rw [show synthesize creatable ttsRun text out_wav engine
          = (match makedirs creatable (dirname out_wav) with
            | .error e => Except.error e
            | .ok _ =>
              if engine = "Piper (offline)" then ttsRun "piper" text
              else if engine = "eSpeak (offline)" then ttsRun "espeak" text
              else ttsRun "pyttsx3" text) from rfl] at h
      rw [hd] at h
      simp [makedirs] at h
    · refine ⟨hd, ?_⟩
      by_cases hc : creatable (dirname out_wav) = true
      · exact hc
      · rw [show synthesize creatable ttsRun text out_wav engine
            = (match makedirs creatable (dirname out_wav) with
              | .error e => Except.error e
              | .ok _ =>
                if engine = "Piper (offline)" then ttsRun "piper" text
                else if engine = "eSpeak (offline)" then ttsRun "espeak" text
                else ttsRun "pyttsx3" text) from rfl] at h
        simp only [makedirs, if_neg hd] at h
        rw [if_neg hc] at h
        simp at h

theorem synthesize_requires_dirname_witness :
    '/' ∉ "out.wav".data
    ∧ synthesize (fun _ => true) (fun _ _ => Except.ok ()) "hello" "out.wav"
        "eSpeak (offline)" = Except.error "No such file or directory" :=
  ⟨by decide,
   (synthesize_requires_dirname (fun _ => true) (fun _ _ => Except.ok ()) "hello"
     "out.wav" "eSpeak (offline)").1 (by decide)⟩
